import Mathlib

/-!
Verification of the floating-IP resource reconciler
(`internal/provider/resource_floating_ip.go`) of the
`terraform-provider-oxide` repository: a shallow embedding of the
state model and the four lifecycle operations, with theorems settling
the specification's claims about them.
-/

/-- A terraform-plugin-framework `types.String`: null, unknown, or a known
string value. -/
inductive TFString where
  | null
  | unknown
  | value (s : String)
deriving Repr, DecidableEq

/-- `types.String.ValueString()`: the known value, or `""` when null or
unknown. -/
def TFString.valueString : TFString → String
  | .value s => s
  | .null => ""
  | .unknown => ""

/-- `types.StringValue`: wrap a known string. -/
def TFString.stringValue (s : String) : TFString := .value s

/-- A `timeouts.Value`: the four optional per-operation durations
(create/read/update/delete), each independently configurable. Durations
are modelled as natural numbers of nanoseconds. -/
structure TimeoutsValue where
  createTimeout : Option Nat
  readTimeout : Option Nat
  updateTimeout : Option Nat
  deleteTimeout : Option Nat
deriving Repr, DecidableEq

/-- Modelled from the spec: `defaultTimeout()`, the hard-coded default
duration used when a per-operation timeout is absent, lives in a repository
file outside `src/`; the spec only requires it to be a fixed duration.
Ten minutes, in nanoseconds. -/
def defaultTimeout : Nat := 600000000000

/-- `timeouts.Value.Create(ctx, default)`: the configured create timeout,
falling back to the default. -/
def TimeoutsValue.resolveCreate (t : TimeoutsValue) (d : Nat) : Nat :=
  t.createTimeout.getD d

/-- `timeouts.Value.Read(ctx, default)`: the configured read timeout,
falling back to the default. -/
def TimeoutsValue.resolveRead (t : TimeoutsValue) (d : Nat) : Nat :=
  t.readTimeout.getD d

/-- `timeouts.Value.Delete(ctx, default)`: the configured delete timeout,
falling back to the default. -/
def TimeoutsValue.resolveDelete (t : TimeoutsValue) (d : Nat) : Nat :=
  t.deleteTimeout.getD d

/-- The persisted state model `floatingIpResourceModel`, field-for-field
from the Go struct (tfsdk tags `id`, `name`, `description`, `project_id`,
`ip_pool_id`, `ip`, `time_created`, `time_modified`, `timeouts`). -/
structure floatingIpResourceModel where
  ID : TFString
  Name : TFString
  Description : TFString
  ProjectID : TFString
  IPPoolID : TFString
  IP : TFString
  TimeCreated : TFString
  TimeModified : TFString
  Timeouts : TimeoutsValue
deriving Repr, DecidableEq

/-- The tfsdk attribute names of `floatingIpResourceModel`, in declaration
order, read off the struct tags in the source: these are exactly the
components of the persisted state layout. -/
def floatingIpResourceModelFieldNames : List String :=
  ["id", "name", "description", "project_id", "ip_pool_id", "ip",
   "time_created", "time_modified", "timeouts"]

/-- The remote `oxide.FloatingIp` object. The eight fields the provider
consumes are read off their uses in the source; `instanceId` (the
bound-instance identity, absent if unattached) is modelled from the spec:
the SDK type is external to the repository and the spec lists
bound-instance-identity among the Object fields. Timestamps are carried
already string-rendered (the source only ever calls `.String()` on them). -/
structure FloatingIp where
  id : String
  name : String
  description : String
  ip : String
  ipPoolId : String
  projectId : String
  instanceId : Option String
  timeCreated : String
  timeModified : String
deriving Repr, DecidableEq

/-- A remote API error: either the platform's "not found" outcome or any
other error carrying a message. -/
inductive APIError where
  | notFound
  | other (msg : String)
deriving Repr, DecidableEq

/-- `err.Error()`: the error's message string. -/
def APIError.message : APIError → String
  | .notFound => "not found"
  | .other m => m

/-- Modelled from the spec: `is404` lives in a repository file outside
`src/`; per the spec's error taxonomy it recognises exactly the remote
platform's "not found" outcome. -/
def is404 : APIError → Bool
  | .notFound => true
  | .other _ => false

/-- One diagnostic, as produced by `resp.Diagnostics.AddError(summary,
detail)`. -/
structure Diagnostic where
  summary : String
  detail : String
deriving Repr, DecidableEq

/-- A remote call issued by an operation, with the arguments forwarded to
the client: `FloatingIpView`, `FloatingIpCreate`, or `FloatingIpDelete`. -/
inductive RemoteCall where
  | viewCall (floatingIp : String)
  | createCall (project : String) (name : String) (description : String)
      (ip : String) (pool : String)
  | deleteCall (floatingIp : String)
deriving Repr, DecidableEq

/-- Outcome of `Create`: the state written by `resp.State.Set` (none when
the operation returned before setting state), the diagnostics, the remote
calls issued, and the timeout the operation resolved before calling. -/
structure CreateResponse where
  newState : Option floatingIpResourceModel
  diagnostics : List Diagnostic
  calls : List RemoteCall
  resolvedTimeout : Option Nat
deriving Repr, DecidableEq

/-- `floatingIpResource.Create`, parameterised by the remote client's
response to the one `FloatingIpCreate` call: resolves the create timeout,
issues the call with the plan's declared fields, and on success sets only
`ID`, `TimeCreated` and `TimeModified` on the plan before persisting it;
on error it adds one diagnostic and persists nothing. -/
def floatingIpResource.Create (plan : floatingIpResourceModel)
    (remote : Except APIError FloatingIp) : CreateResponse :=
  let t := plan.Timeouts.resolveCreate defaultTimeout
  let trace := [RemoteCall.createCall plan.ProjectID.valueString
    plan.Name.valueString plan.Description.valueString
    plan.IP.valueString plan.IPPoolID.valueString]
  match remote with
  | .error e =>
    { newState := none
      diagnostics := [{ summary := "Error creating floatingIp"
                        detail := "API error: " ++ e.message }]
      calls := trace
      resolvedTimeout := some t }
  | .ok floatingIp =>
    { newState := some { plan with
        ID := TFString.stringValue floatingIp.id
        TimeCreated := TFString.stringValue floatingIp.timeCreated
        TimeModified := TFString.stringValue floatingIp.timeModified }
      diagnostics := []
      calls := trace
      resolvedTimeout := some t }

/-- The result component of `Read`: the refreshed state written by
`resp.State.Set`, the removal signal of `resp.State.RemoveResource`, or
an early return leaving the state untouched. -/
inductive ReadResult where
  | updated (m : floatingIpResourceModel)
  | removed
  | untouched
deriving Repr, DecidableEq

/-- Outcome of `Read`. -/
structure ReadResponse where
  result : ReadResult
  diagnostics : List Diagnostic
  calls : List RemoteCall
  resolvedTimeout : Option Nat
deriving Repr, DecidableEq

/-- The field overwrites `Read` performs on the prior state from the
remote object, exactly the assignment block of the source (the remaining
field, `Timeouts`, is not assigned). -/
def readUpdate (state : floatingIpResourceModel) (floatingIp : FloatingIp) :
    floatingIpResourceModel :=
  { state with
    Description := TFString.stringValue floatingIp.description
    ID := TFString.stringValue floatingIp.id
    Name := TFString.stringValue floatingIp.name
    IP := TFString.stringValue floatingIp.ip
    IPPoolID := TFString.stringValue floatingIp.ipPoolId
    ProjectID := TFString.stringValue floatingIp.projectId
    TimeCreated := TFString.stringValue floatingIp.timeCreated
    TimeModified := TFString.stringValue floatingIp.timeModified }

/-- `floatingIpResource.Read`, parameterised by the remote client's
response to the one `FloatingIpView` call keyed by the state's ID:
resolves the read timeout, issues the call, removes the resource on a 404,
adds one diagnostic on any other error, and otherwise overwrites the state
from the remote object and persists it. -/
def floatingIpResource.Read (state : floatingIpResourceModel)
    (remote : Except APIError FloatingIp) : ReadResponse :=
  let t := state.Timeouts.resolveRead defaultTimeout
  let ref := state.ID.valueString
  let trace := [RemoteCall.viewCall ref]
  match remote with
  | .error e =>
    if is404 e then
      { result := .removed, diagnostics := [], calls := trace
        resolvedTimeout := some t }
    else
      { result := .untouched
        diagnostics := [{ summary := "Unable to read floatingIp:"
                          detail := "API error: " ++ e.message }]
        calls := trace
        resolvedTimeout := some t }
  | .ok floatingIp =>
    { result := .updated (readUpdate state floatingIp)
      diagnostics := []
      calls := trace
      resolvedTimeout := some t }

/-- Outcome of `Update`. -/
structure UpdateResponse where
  newState : Option floatingIpResourceModel
  diagnostics : List Diagnostic
  calls : List RemoteCall
  resolvedTimeout : Option Nat
deriving Repr, DecidableEq

/-- `floatingIpResource.Update`: unconditionally adds one diagnostic and
does nothing else — no timeout resolution, no remote call, no state
write. -/
def floatingIpResource.Update (_state : floatingIpResourceModel) :
    UpdateResponse :=
  { newState := none
    diagnostics := [{ summary := "Error updating floatingIp"
                      detail := "the oxide API currently does not support updating floatingIps" }]
    calls := []
    resolvedTimeout := none }

/-- Outcome of `Delete`. -/
structure DeleteResponse where
  diagnostics : List Diagnostic
  calls : List RemoteCall
  resolvedTimeout : Option Nat
deriving Repr, DecidableEq

/-- `floatingIpResource.Delete`, parameterised by the remote client's
response to the one `FloatingIpDelete` call keyed by the state's ID
(`none` = success): resolves the delete timeout, issues the call, treats
a 404 like success, and adds one diagnostic on any other error. -/
def floatingIpResource.Delete (state : floatingIpResourceModel)
    (remote : Option APIError) : DeleteResponse :=
  let t := state.Timeouts.resolveDelete defaultTimeout
  let ref := state.ID.valueString
  let trace := [RemoteCall.deleteCall ref]
  match remote with
  | none => { diagnostics := [], calls := trace, resolvedTimeout := some t }
  | some e =>
    if is404 e then
      { diagnostics := [], calls := trace, resolvedTimeout := some t }
    else
      { diagnostics := [{ summary := "Unable to delete floatingIp:"
                          detail := "API error: " ++ e.message }]
        calls := trace
        resolvedTimeout := some t }

/-- An honest remote platform, for sequencing two Delete invocations: the
set of identities that currently exist. Per the Remote Client contract,
`Delete(identity)` on an existing identity removes it and succeeds, and on
an absent identity reports not-found. -/
def World := String → Bool

/-- The remote platform's `Delete` semantics over a `World`. -/
def remoteDelete (w : World) (ref : String) : Option APIError × World :=
  if w ref then (none, fun r => if r = ref then false else w r)
  else (some .notFound, w)

/-- Sample prior state used in concrete witnesses and counterexamples. -/
def sampleState : floatingIpResourceModel :=
  { ID := .value "fip-123"
    Name := .value "lb-vip"
    Description := .value "load balancer VIP"
    ProjectID := .value "proj-1"
    IPPoolID := .value "pool-1"
    IP := .value "10.0.0.5"
    TimeCreated := .value "t0"
    TimeModified := .value "t1"
    Timeouts := { createTimeout := none, readTimeout := none
                  updateTimeout := none, deleteTimeout := none } }

/-- Sample remote object used in concrete witnesses and counterexamples. -/
def sampleFip : FloatingIp :=
  { id := "fip-123"
    name := "lb-vip"
    description := "load balancer VIP"
    ip := "10.0.0.5"
    ipPoolId := "pool-uuid"
    projectId := "proj-uuid"
    instanceId := none
    timeCreated := "t0"
    timeModified := "t1" }

/-- `Read` always issues exactly one `FloatingIpView` call, keyed by the
state's ID rendered with `ValueString`. -/
theorem read_issues_view (s : floatingIpResourceModel)
    (r : Except APIError FloatingIp) :
    (floatingIpResource.Read s r).calls = [RemoteCall.viewCall s.ID.valueString] := by
  rcases r with e | o
  · cases e <;> rfl
  · rfl

/-- `Delete` always issues exactly one `FloatingIpDelete` call, keyed by
the state's ID rendered with `ValueString`. -/
theorem delete_issues_delete (s : floatingIpResourceModel)
    (r : Option APIError) :
    (floatingIpResource.Delete s r).calls = [RemoteCall.deleteCall s.ID.valueString] := by
  rcases r with _ | e
  · rfl
  · cases e <;> rfl

/-- C1: invoking Update on any state yields exactly one diagnostic, with
summary "Error updating floatingIp", performs no remote call, and writes
no state. -/
theorem update_always_rejects_c1 (s : floatingIpResourceModel) :
    (floatingIpResource.Update s).diagnostics =
      [{ summary := "Error updating floatingIp"
         detail := "the oxide API currently does not support updating floatingIps" }] ∧
    (floatingIpResource.Update s).calls = [] ∧
    (floatingIpResource.Update s).newState = none :=
  ⟨rfl, rfl, rfl⟩

/-- C2: for a state carrying a prior Identity, a not-found result from the
remote View during Read yields the removal signal and no diagnostic. -/
theorem read_drift_removal_c2 (s : floatingIpResourceModel) (i : String)
    (_h : s.ID = TFString.value i) :
    (floatingIpResource.Read s (.error .notFound)).result = ReadResult.removed ∧
    (floatingIpResource.Read s (.error .notFound)).diagnostics = [] :=
  ⟨rfl, rfl⟩

/-- Witness for C2 at a concrete state. -/
theorem read_drift_removal_c2_witness :
    (floatingIpResource.Read sampleState (.error .notFound)).result = ReadResult.removed ∧
    (floatingIpResource.Read sampleState (.error .notFound)).diagnostics = [] :=
  read_drift_removal_c2 sampleState "fip-123" rfl

/-- C3: Delete treats a not-found response as success (no diagnostic), and
against the remote platform's Delete semantics two Delete invocations in
sequence never produce an error on the second call. -/
theorem idempotent_delete_c3 (w : World) (s : floatingIpResourceModel) :
    (floatingIpResource.Delete s (some .notFound)).diagnostics = [] ∧
    (floatingIpResource.Delete s
      (remoteDelete (remoteDelete w s.ID.valueString).2 s.ID.valueString).1).diagnostics = [] := by
  refine ⟨rfl, ?_⟩
  have h2 : (remoteDelete (remoteDelete w s.ID.valueString).2 s.ID.valueString).1
      = some .notFound := by
    unfold remoteDelete
    by_cases h : w s.ID.valueString = true
    · simp [h]
    · simp [h]
  rw [h2]
  rfl

/-- C4 counterexample: two remote objects that differ only in their
bound-instance identity produce the very same Read outcome, so the
post-Read state cannot equal the remote object field-for-field on the
bound-instance identity — the state model has no field for it. -/
theorem read_drops_instance_id_c4 :
    floatingIpResource.Read sampleState (.ok { sampleFip with instanceId := some "inst-9" }) =
      floatingIpResource.Read sampleState (.ok sampleFip) ∧
    ({ sampleFip with instanceId := some "inst-9" } : FloatingIp).instanceId ≠
      sampleFip.instanceId :=
  ⟨rfl, by simp [sampleFip]⟩

/-- C4 (amended): after a successful Read, the state's identity, name,
description, project id, ip, pool id and timestamps equal the remote
object's, with no diagnostic; the bound-instance identity is not carried
(the state model has no such field). -/
theorem read_reflects_remote_c4 (s : floatingIpResourceModel) (o : FloatingIp) :
    (floatingIpResource.Read s (.ok o)).result = ReadResult.updated (readUpdate s o) ∧
    (readUpdate s o).ID = TFString.value o.id ∧
    (readUpdate s o).Name = TFString.value o.name ∧
    (readUpdate s o).Description = TFString.value o.description ∧
    (readUpdate s o).ProjectID = TFString.value o.projectId ∧
    (readUpdate s o).IP = TFString.value o.ip ∧
    (readUpdate s o).IPPoolID = TFString.value o.ipPoolId ∧
    (readUpdate s o).TimeCreated = TFString.value o.timeCreated ∧
    (readUpdate s o).TimeModified = TFString.value o.timeModified ∧
    (floatingIpResource.Read s (.ok o)).diagnostics = [] :=
  ⟨rfl, rfl, rfl, rfl, rfl, rfl, rfl, rfl, rfl, rfl⟩

/-- C5 counterexample: on a successful Create whose remote object carries
a resolved project identity different from the declared project reference,
the persisted state keeps the declared value — the owning-project identity
(like the pool identity and the absent bound-instance identity) is not
merged from the remote object. -/
theorem create_does_not_merge_project_c5 :
    ((floatingIpResource.Create sampleState (.ok sampleFip)).newState.map
        floatingIpResourceModel.ProjectID) = some (TFString.value "proj-1") ∧
    sampleFip.projectId ≠ "proj-1" := by
  constructor
  · rfl
  · simp [sampleFip]

/-- C5 (amended): a successful Create merges exactly the resource identity
and the two timestamps from the remote object into the state; every other
field — name, description, project reference, pool reference, ip, timeout
configuration — remains as supplied in the plan. -/
theorem create_merges_id_and_timestamps_c5 (plan : floatingIpResourceModel)
    (o : FloatingIp) :
    ∃ m, (floatingIpResource.Create plan (.ok o)).newState = some m ∧
      m.ID = TFString.value o.id ∧
      m.TimeCreated = TFString.value o.timeCreated ∧
      m.TimeModified = TFString.value o.timeModified ∧
      m.Name = plan.Name ∧
      m.Description = plan.Description ∧
      m.ProjectID = plan.ProjectID ∧
      m.IPPoolID = plan.IPPoolID ∧
      m.IP = plan.IP ∧
      m.Timeouts = plan.Timeouts :=
  ⟨_, rfl, rfl, rfl, rfl, rfl, rfl, rfl, rfl, rfl, rfl⟩

/-- C6: when the remote Create call fails, no state is persisted (hence no
identity is assigned) and the remote error is surfaced verbatim as the one
diagnostic. -/
theorem create_failure_atomic_c6 (plan : floatingIpResourceModel)
    (e : APIError) :
    (floatingIpResource.Create plan (.error e)).newState = none ∧
    (floatingIpResource.Create plan (.error e)).diagnostics =
      [{ summary := "Error creating floatingIp"
         detail := "API error: " ++ e.message }] :=
  ⟨rfl, rfl⟩

/-- C7 counterexample: Update resolves no timeout at all (and makes no
remote call), so it is not the case that each of the four lifecycle
operations resolves its own per-operation timeout. -/
theorem update_resolves_no_timeout_c7 :
    (floatingIpResource.Update sampleState).resolvedTimeout = none ∧
    (floatingIpResource.Update sampleState).calls = [] :=
  ⟨rfl, rfl⟩

/-- C7 (amended): Create, Read and Delete each independently resolve their
own per-operation timeout from the state's timeout configuration (falling
back to the default) before their remote call; Update resolves no timeout
and makes no remote call. No deadline is shared across operations. -/
theorem per_operation_timeouts_c7 (s : floatingIpResourceModel)
    (rc : Except APIError FloatingIp) (rr : Except APIError FloatingIp)
    (rd : Option APIError) :
    (floatingIpResource.Create s rc).resolvedTimeout =
      some (s.Timeouts.createTimeout.getD defaultTimeout) ∧
    (floatingIpResource.Read s rr).resolvedTimeout =
      some (s.Timeouts.readTimeout.getD defaultTimeout) ∧
    (floatingIpResource.Delete s rd).resolvedTimeout =
      some (s.Timeouts.deleteTimeout.getD defaultTimeout) ∧
    (floatingIpResource.Update s).resolvedTimeout = none := by
  refine ⟨?_, ?_, ?_, rfl⟩
  · rcases rc with e | o <;> rfl
  · rcases rr with e | o
    · cases e <;> rfl
    · rfl
  · rcases rd with _ | e
    · rfl
    · cases e <;> rfl

/-- The persisted layout as the explicit tuple of its nine components. -/
def modelComponents (m : floatingIpResourceModel) :
    TFString × TFString × TFString × TFString × TFString × TFString ×
      TFString × TFString × TimeoutsValue :=
  (m.ID, m.Name, m.Description, m.ProjectID, m.IPPoolID, m.IP,
    m.TimeCreated, m.TimeModified, m.Timeouts)

/-- Rebuild a state model from the nine components. -/
def modelOfComponents
    (c : TFString × TFString × TFString × TFString × TFString × TFString ×
      TFString × TFString × TimeoutsValue) : floatingIpResourceModel :=
  { ID := c.1, Name := c.2.1, Description := c.2.2.1, ProjectID := c.2.2.2.1
    IPPoolID := c.2.2.2.2.1, IP := c.2.2.2.2.2.1
    TimeCreated := c.2.2.2.2.2.2.1, TimeModified := c.2.2.2.2.2.2.2.1
    Timeouts := c.2.2.2.2.2.2.2.2 }

/-- C8 counterexample: the persisted state layout has nine attributes and
none of them is a bound instance id — the layout claimed by the spec lists
ten fields including `instance_id`. -/
theorem no_instance_id_attribute_c8 :
    floatingIpResourceModelFieldNames.length = 9 ∧
    "instance_id" ∉ floatingIpResourceModelFieldNames := by
  constructor
  · rfl
  · decide

/-- C8 (amended): the persisted state layout consists of exactly the nine
components id, name, description, project_id, ip_pool_id, ip,
time_created, time_modified and timeouts — the model and the nine-tuple of
those components are in exact correspondence, and there is no bound
instance id among the attribute names. -/
theorem persisted_layout_c8 (m : floatingIpResourceModel)
    (c : TFString × TFString × TFString × TFString × TFString × TFString ×
      TFString × TFString × TimeoutsValue) :
    modelOfComponents (modelComponents m) = m ∧
    modelComponents (modelOfComponents c) = c ∧
    floatingIpResourceModelFieldNames =
      ["id", "name", "description", "project_id", "ip_pool_id", "ip",
       "time_created", "time_modified", "timeouts"] ∧
    "instance_id" ∉ floatingIpResourceModelFieldNames := by
  refine ⟨rfl, ?_, rfl, by decide⟩
  obtain ⟨a, b, d, e, f, g, h, i, j⟩ := c
  rfl

/-- C9: neither Read nor Delete inspects the state's Identity locally: when
the ID is null or the empty string, the remote View or Delete call is still
issued, with the empty string forwarded as the resource reference. -/
theorem no_local_id_check_c9 (s : floatingIpResourceModel)
    (rv : Except APIError FloatingIp) (rd : Option APIError)
    (h : s.ID = TFString.null ∨ s.ID = TFString.value "") :
    (floatingIpResource.Read s rv).calls = [RemoteCall.viewCall ""] ∧
    (floatingIpResource.Delete s rd).calls = [RemoteCall.deleteCall ""] := by
  have href : s.ID.valueString = "" := by
    rcases h with h | h <;> rw [h] <;> rfl
  rw [read_issues_view, delete_issues_delete, href]
  exact ⟨rfl, rfl⟩

/-- A sample state whose ID is null. -/
def nullIdState : floatingIpResourceModel :=
  { sampleState with ID := TFString.null }

/-- Witness for C9 at a concrete state with a null ID. -/
theorem no_local_id_check_c9_witness :
    (floatingIpResource.Read nullIdState (.error .notFound)).calls =
      [RemoteCall.viewCall ""] ∧
    (floatingIpResource.Delete nullIdState none).calls =
      [RemoteCall.deleteCall ""] :=
  no_local_id_check_c9 nullIdState (.error .notFound) none (Or.inl rfl)

/-- C10: a successful Read overwrites only the fields supplied by the
remote object; the timeout configuration in the resulting state equals the
prior state's. -/
theorem read_preserves_timeouts_c10 (s : floatingIpResourceModel)
    (o : FloatingIp) :
    (floatingIpResource.Read s (.ok o)).result = ReadResult.updated (readUpdate s o) ∧
    (readUpdate s o).Timeouts = s.Timeouts :=
  ⟨rfl, rfl⟩
